import Mathlib

/-!
# SphagnumDB core: a shallow embedding, checked against its specification

This file embeds the core of SphagnumDB — a small clustered in-memory
key-value store — in Lean 4 and proves (or refutes) the specification's
claims about it.

Embedded components, translated from the Rust sources:

* the command algebra (`src/core/commands/{mod,string,generic}.rs`);
* the keyspace engine `StringStore` (`src/core/data_types/string.rs`);
* the node passport (`src/core/passport.rs`);
* the node runtime's inbound-request handling and replication fan-out
  (`src/core/sphagnum.rs`, `SphagnumNode::handle_event` and
  `SphagnumNode::send_to_replicas`).

Rust's `HashMap<String, String>` is modelled as a function
`String → Option String`; `u64` counters are modelled as `Nat` (all counts
here are bounded by list lengths or string lengths, so overflow is
immaterial); Rust's `Result<T, Box<dyn Error>>` is modelled as
`Except String T`, an error being represented by its rendered message.
-/

/-! ## Command algebra (`src/core/commands`) -/

/-- `StringCommand` from `src/core/commands/string.rs`. -/
inductive StringCommand where
  | Set (key value : String)
  | Get (key : String)
  | Append (key value : String)
deriving DecidableEq, Repr

/-- `GenericCommand` from `src/core/commands/generic.rs`. -/
inductive GenericCommand where
  | Exists (keys : List String)
  | Delete (keys : List String)
deriving DecidableEq, Repr

/-- `Command` from `src/core/commands/mod.rs`. -/
inductive Command where
  | String (c : StringCommand)
  | Generic (c : GenericCommand)
deriving DecidableEq, Repr

/-- `CommandResult` from `src/core/commands/mod.rs`. -/
inductive CommandResult where
  | String (s : String)
  | Int (n : Nat)
  | Bool (b : Bool)
  | Nil
  | Error (m : String)
deriving DecidableEq, Repr

/-! ## Keyspace engine (`src/core/data_types/string.rs`) -/

/-- `StringStore`: the in-memory keyspace. The Rust
`data: HashMap<String, String>` is modelled extensionally as a function
from keys to optional values. -/
structure StringStore where
  data : String → Option String

/-- `StringStore::set`: `self.data.insert(key, value)` (overwrite). -/
def StringStore.set (st : StringStore) (key value : String) : StringStore :=
  ⟨fun k2 => if k2 = key then some value else st.data k2⟩

/-- `StringStore::get`: `self.data.get(key)`. -/
def StringStore.get (st : StringStore) (key : String) : Option String :=
  st.data key

/-- `StringStore::append`: `self.data.entry(key).or_default().push_str(value)`,
returning the resulting entry's byte length (`entry.len() as u64`). -/
def StringStore.append (st : StringStore) (key value : String) :
    StringStore × Nat :=
  let newVal := ((st.data key).getD "") ++ value
  (⟨fun k2 => if k2 = key then some newVal else st.data k2⟩, newVal.utf8ByteSize)

/-- `StringStore::exists` (trait `GenericOperations`): counts, over the given
key list with multiplicity, the keys present in the map. -/
def StringStore.exists (st : StringStore) (keys : List String) : Nat :=
  keys.countP fun key => (st.data key).isSome

/-- Removal of one key: `self.data.remove(key)` (the map part). -/
def StringStore.removeKey (st : StringStore) (key : String) : StringStore :=
  ⟨fun k2 => if k2 = key then none else st.data k2⟩

/-- `StringStore::delete` (trait `GenericOperations`): iterates over the keys
in order, removes each present one and counts the successful removals. -/
def StringStore.delete (st : StringStore) : List String → StringStore × Nat
  | [] => (st, 0)
  | key :: keys =>
    if (st.data key).isSome then
      let r := (st.removeKey key).delete keys
      (r.1, r.2 + 1)
    else
      st.delete keys

/-- `StringStore::handle_command` (`impl DataType for StringStore`). The Rust
signature returns `Result<CommandResult, Box<dyn Error>>`; its final
`_ => Err("Command not supported by StringStore")` arm is marked
`#[allow(unreachable_patterns)]` and is indeed unwritable here because the
two matched variants exhaust `Command`. -/
def StringStore.handleCommand (st : StringStore) :
    Command → Except String (CommandResult × StringStore)
  | .String (.Set key value) =>
    .ok (.String "OK", st.set key value)
  | .String (.Get key) =>
    .ok ((st.get key).elim .Nil .String, st)
  | .String (.Append key value) =>
    let r := st.append key value
    .ok (.Int r.2, r.1)
  | .Generic (.Exists keys) =>
    .ok (.Int (st.exists keys), st)
  | .Generic (.Delete keys) =>
    let r := st.delete keys
    .ok (.Int r.2, r.1)

/-- The empty keyspace (`StringStore::new`). -/
def StringStore.new : StringStore := ⟨fun _ => none⟩

/-! ## Passport (`src/core/passport.rs`) -/

/-- `PassportError` from `src/core/passport.rs`. -/
inductive PassportError where
  | InitializationError
  | FieldRetrievalError
  | FieldModificationError
deriving DecidableEq, Repr

/-- `Passport`: a per-node descriptor with one string field. -/
structure Passport where
  field : String
deriving DecidableEq, Repr

/-- `Passport::new`: default field value `"lawn"`. -/
def Passport.new : Except PassportError Passport :=
  .ok ⟨"lawn"⟩

/-- `Passport::get_field`: fails with `FieldRetrievalError` when the field is
empty, otherwise returns it. -/
def Passport.getField (p : Passport) : Except PassportError String :=
  if p.field = "" then .error .FieldRetrievalError else .ok p.field

/-- `Passport::set_field`: fails with `FieldModificationError` when the new
value is empty (leaving the field untouched), otherwise stores it. The pair
returns the passport after the call together with the call's result. -/
def Passport.setField (p : Passport) (newField : String) :
    Passport × Except PassportError Unit :=
  if newField = "" then (p, .error .FieldModificationError)
  else (⟨newField⟩, .ok ())

/-! ## Node runtime (`src/core/sphagnum.rs`)

`SphagnumNode::handle_event` drives the whole event loop; the claims bear on
its inbound-request arm (`request_response::Message::Request`), so that arm is
embedded as a function from the node state and the inbound request to the node
state after the call, the response sent back on the reply channel, and the
list of replication requests fanned out to peers. Transport-only state (the
libp2p swarm, listeners, the ping behaviour) is not represented. -/

/-- Peer identities (libp2p `PeerId`) are opaque; only equality matters. -/
abbrev PeerId := Nat

/-- `SphagnumRequest` from `src/core/req_resp_codec.rs` (the
`SphagnumDB/1.0.0` wire envelope used by `sphagnum.rs`): a command, a reserved
payload, and the replication flag. -/
structure SphagnumRequest where
  command : Command
  payload : String
  isReplication : Bool
deriving DecidableEq, Repr

/-- `SphagnumResponse`: the rendered payload sent back to the requester. -/
structure SphagnumResponse where
  payload : String
deriving DecidableEq, Repr

/-- Modelled from the spec: `DataStorage::handle_command` as called by
`SphagnumNode` is not present under the sources (`src/core/data_storage.rs`
holds an earlier numeric mock without that method). Per spec §4.1 the node's
engine is the keyspace engine — the string-typed capability holds the keyspace
and the generic capability operates on the same keyspace — so the storage
delegates every command to the `StringStore`. -/
abbrev DataStorage := StringStore

/-- Modelled from the spec: delegation of `DataStorage::handle_command` to
`StringStore::handle_command` (spec §4.1). -/
def DataStorage.handleCommand (d : DataStorage) (c : Command) :
    Except String (CommandResult × StringStore) :=
  StringStore.handleCommand d c

/-- The node state visible to the embedded fragment of
`SphagnumNode::handle_event`. -/
structure SphagnumNode where
  dataStorage : DataStorage
  replicaSet : List PeerId
  connectedPeers : List PeerId
  selfId : PeerId

/-- `SphagnumNode::send_to_replicas`: for every peer of the replica set other
than this node and currently connected, emit a request carrying the command,
an empty payload, and `is_replication: true`. -/
def SphagnumNode.sendToReplicas (n : SphagnumNode) (command : Command) :
    List (PeerId × SphagnumRequest) :=
  (n.replicaSet.filter fun p => p != n.selfId && n.connectedPeers.contains p).map
    fun p => (p, { command := command, payload := "", isReplication := true })

/-- The `Set` arm's response rendering in `handle_event`: the engine string on
success, `"Unexpected response"` on an unexpected result kind, and
`format!("Error setting value: {:?}", e)` on an engine error (the error being
modelled by its rendering). -/
def renderSetResult : Except String CommandResult → String
  | .ok (.String ok) => ok
  | .ok _ => "Unexpected response"
  | .error e => "Error setting value: " ++ e

/-- The `Get` arm's response rendering in `handle_event`: the value on
success, `"nil"` when the engine answers `Nil`, `"Unexpected response"`
otherwise, and `format!("Error getting value: {:?}", e)` on an error. -/
def renderGetResult : Except String CommandResult → String
  | .ok (.String value) => value
  | .ok .Nil => "nil"
  | .ok _ => "Unexpected response"
  | .error e => "Error getting value: " ++ e

/-- The `Append` arm's response rendering in `handle_event`. -/
def renderAppendResult : Except String CommandResult → String
  | .ok (.Int len) => toString len
  | .ok _ => "Unexpected response"
  | .error e => "Error appending value: " ++ e

/-- The `Exists` arm's response rendering in `handle_event`. -/
def renderExistsResult : Except String CommandResult → String
  | .ok (.Int count) => toString count
  | .ok _ => "Unexpected response"
  | .error e => "Error checking existence: " ++ e

/-- The `Delete` arm's response rendering in `handle_event`. -/
def renderDeleteResult : Except String CommandResult → String
  | .ok (.Int count) => toString count
  | .ok _ => "Unexpected response"
  | .error e => "Error deleting keys: " ++ e

/-- Outcome of processing one inbound request: node state after the call, the
response sent on the reply channel, and the replication requests sent out. -/
structure HandleOutcome where
  node : SphagnumNode
  response : SphagnumResponse
  fanout : List (PeerId × SphagnumRequest)

/-- The inbound-request arm of `SphagnumNode::handle_event`
(`request_response::Message::Request`): apply the command to the engine,
render the response payload, and — in the `Set` arm when the engine answered
`"OK"` and the request is not a replication, and in the `Append`, `Exists` and
`Delete` arms when the engine answered an `Int` and the request is not a
replication — fan the original command out to the replicas. The `Get` arm
never fans out. -/
def SphagnumNode.handleRequest (n : SphagnumNode) (req : SphagnumRequest) :
    HandleOutcome :=
  match req.command with
  | .String (.Set key value) =>
    match n.dataStorage.handleCommand (.String (.Set key value)) with
    | .ok (r, st) =>
      { node := { n with dataStorage := st },
        response := ⟨renderSetResult (.ok r)⟩,
        fanout :=
          match r with
          | .String ok =>
            if ok == "OK" && !req.isReplication then n.sendToReplicas req.command
            else []
          | _ => [] }
    | .error e =>
      { node := n, response := ⟨renderSetResult (.error e)⟩, fanout := [] }
  | .String (.Get key) =>
    match n.dataStorage.handleCommand (.String (.Get key)) with
    | .ok (r, st) =>
      { node := { n with dataStorage := st },
        response := ⟨renderGetResult (.ok r)⟩,
        fanout := [] }
    | .error e =>
      { node := n, response := ⟨renderGetResult (.error e)⟩, fanout := [] }
  | .String (.Append key value) =>
    match n.dataStorage.handleCommand (.String (.Append key value)) with
    | .ok (r, st) =>
      { node := { n with dataStorage := st },
        response := ⟨renderAppendResult (.ok r)⟩,
        fanout :=
          match r with
          | .Int _ =>
            if !req.isReplication then n.sendToReplicas req.command else []
          | _ => [] }
    | .error e =>
      { node := n, response := ⟨renderAppendResult (.error e)⟩, fanout := [] }
  | .Generic (.Exists keys) =>
    match n.dataStorage.handleCommand (.Generic (.Exists keys)) with
    | .ok (r, st) =>
      { node := { n with dataStorage := st },
        response := ⟨renderExistsResult (.ok r)⟩,
        fanout :=
          match r with
          | .Int _ =>
            if !req.isReplication then n.sendToReplicas req.command else []
          | _ => [] }
    | .error e =>
      { node := n, response := ⟨renderExistsResult (.error e)⟩, fanout := [] }
  | .Generic (.Delete keys) =>
    match n.dataStorage.handleCommand (.Generic (.Delete keys)) with
    | .ok (r, st) =>
      { node := { n with dataStorage := st },
        response := ⟨renderDeleteResult (.ok r)⟩,
        fanout :=
          match r with
          | .Int _ =>
            if !req.isReplication then n.sendToReplicas req.command else []
          | _ => [] }
    | .error e =>
      { node := n, response := ⟨renderDeleteResult (.error e)⟩, fanout := [] }

/-! ## Concrete fixtures used by closed theorems -/

/-- A keyspace holding exactly the binding `"k" ↦ "nil"`. -/
def storeWithNil : StringStore :=
  ⟨fun k2 => if k2 = "k" then some "nil" else none⟩

/-- A node with an empty keyspace, no peers. -/
def nodeAbsent : SphagnumNode :=
  { dataStorage := StringStore.new, replicaSet := [], connectedPeers := [],
    selfId := 0 }

/-- A node whose keyspace binds `"k"` to `"nil"`, no peers. -/
def nodeNil : SphagnumNode :=
  { dataStorage := storeWithNil, replicaSet := [], connectedPeers := [],
    selfId := 0 }

/-- A node (id 0) with an empty keyspace and one connected replica, peer 1. -/
def replNode : SphagnumNode :=
  { dataStorage := StringStore.new, replicaSet := [1], connectedPeers := [1],
    selfId := 0 }

/-- An inbound client `Get{"k"}` request. -/
def getKReq : SphagnumRequest :=
  { command := .String (.Get "k"), payload := "", isReplication := false }

/-- An inbound client `Exists{["k"]}` request (`is_replication = false`). -/
def existsKReq : SphagnumRequest :=
  { command := .Generic (.Exists ["k"]), payload := "", isReplication := false }

/-- An inbound replication `Set{"k","v"}` request (`is_replication = true`). -/
def replSetReq : SphagnumRequest :=
  { command := .String (.Set "k" "v"), payload := "", isReplication := true }

/-! ## Shared lemmas -/

/-- UTF-8 byte length distributes over string concatenation. -/
theorem stringAppend_utf8ByteSize (s t : String) :
    (s ++ t).utf8ByteSize = s.utf8ByteSize + t.utf8ByteSize := by
  cases s with
  | mk a =>
    cases t with
    | mk b =>
      show String.utf8ByteSize ⟨a ++ b⟩ = _
      simp [String.utf8ByteSize_mk]

/-- Counting with a predicate is the sum of its indicator over the list. -/
theorem countP_eq_sumIndicator {α : Type} (p : α → Bool) (l : List α) :
    l.countP p = (l.map fun a => if p a then 1 else 0).sum := by
  induction l with
  | nil => simp
  | cons a l ih =>
    by_cases h : p a <;> simp [List.countP_cons, h, ih] <;> omega

/-- Every request emitted by `send_to_replicas` carries the replication
flag. -/
theorem sendToReplicas_isReplication (n : SphagnumNode) (c : Command) :
    ∀ pr ∈ n.sendToReplicas c, pr.2.isReplication = true := by
  intro pr hpr
  simp only [SphagnumNode.sendToReplicas, List.mem_map] at hpr
  obtain ⟨p, _, rfl⟩ := hpr
  rfl

/-- The fan-out of one inbound request is all-or-nothing: either empty, or
exactly the `send_to_replicas` emission for the request's command. -/
theorem handleRequest_fanout (n : SphagnumNode) (req : SphagnumRequest) :
    (n.handleRequest req).fanout = [] ∨
      (n.handleRequest req).fanout = n.sendToReplicas req.command := by
  obtain ⟨c, pl, rep⟩ := req
  cases c with
  | String sc =>
    cases sc <;> cases rep <;>
      simp [SphagnumNode.handleRequest, DataStorage.handleCommand,
        StringStore.handleCommand]
  | Generic gc =>
    cases gc <;> cases rep <;>
      simp [SphagnumNode.handleRequest, DataStorage.handleCommand,
        StringStore.handleCommand]

/-- After `delete ks`, a key is bound exactly when it was bound before and is
not listed in `ks`. -/
theorem delete_data (ks : List String) : ∀ (st : StringStore) (k2 : String),
    ((st.delete ks).1).data k2 = if k2 ∈ ks then none else st.data k2 := by
  induction ks with
  | nil => intro st k2; simp [StringStore.delete]
  | cons k ks ih =>
    intro st k2
    by_cases h : (st.data k).isSome
    · simp only [StringStore.delete, h, if_true]
      rw [ih]
      by_cases hk : k2 = k <;> by_cases hm : k2 ∈ ks <;>
        simp [StringStore.removeKey, hk, hm, List.mem_cons]
    · have hstep : st.delete (k :: ks) = st.delete ks := by
        simp [StringStore.delete, h]
      rw [hstep, ih]
      have hnone : st.data k = none := Option.not_isSome_iff_eq_none.mp h
      by_cases hk : k2 = k <;> by_cases hm : k2 ∈ ks <;>
        simp [hk, hm, List.mem_cons, hnone]

/-- `delete ks` counts exactly the distinct listed keys that were present just
before the call. -/
theorem delete_count (ks : List String) : ∀ st : StringStore,
    (st.delete ks).2 =
      (ks.toFinset.filter fun k => (st.data k).isSome = true).card := by
  induction ks with
  | nil => intro st; simp [StringStore.delete]
  | cons k ks ih =>
    intro st
    by_cases h : (st.data k).isSome = true
    · simp only [StringStore.delete, h, if_true]
      rw [ih]
      have hfil :
          (ks.toFinset.filter fun k2 => ((st.removeKey k).data k2).isSome = true)
            = (ks.toFinset.filter fun k2 => (st.data k2).isSome = true).erase k := by
        ext k2
        by_cases hk : k2 = k <;>
          simp [StringStore.removeKey, hk, Finset.mem_filter, Finset.mem_erase]
      rw [hfil, List.toFinset_cons, Finset.filter_insert, if_pos h]
      by_cases hkT : k ∈ ks.toFinset.filter fun k2 => (st.data k2).isSome = true
      · rw [Finset.card_insert_of_mem hkT, Finset.card_erase_of_mem hkT]
        have hpos : 0 < (ks.toFinset.filter
            fun k2 => (st.data k2).isSome = true).card :=
          Finset.card_pos.mpr ⟨k, hkT⟩
        omega
      · rw [Finset.card_insert_of_not_mem hkT, Finset.erase_eq_of_not_mem hkT]
    · have hstep : st.delete (k :: ks) = st.delete ks := by
        simp [StringStore.delete, h]
      rw [hstep, ih, List.toFinset_cons, Finset.filter_insert, if_neg h]

/-! ## Claim theorems -/

/-- Claim C1 (code bug at this input): an inbound client request whose command
is the read-only `Exists{["k"]}` (`is_replication = false`), processed by a
node with one connected replica (peer 1), makes `handle_event` fan a
replication request out to that replica — the claim says read-only commands
never trigger the replication fan-out, but the `Exists` arm of
`SphagnumNode::handle_event` calls `send_to_replicas` exactly like the
mutating arms. -/
theorem C1_exists_fanout_bug :
    (replNode.handleRequest existsKReq).fanout =
      [(1, { command := .Generic (.Exists ["k"]), payload := "",
             isReplication := true })] := by
  decide

/-- Claim C2: processing an inbound request carrying `is_replication = true`
produces no outbound replication requests, and every fan-out request the node
emits while processing any inbound request carries `is_replication = true` —
single-hop replication never amplifies. -/
theorem C2_no_amplification (n : SphagnumNode) (req : SphagnumRequest) :
    (req.isReplication = true → (n.handleRequest req).fanout = [])
    ∧ ∀ pr ∈ (n.handleRequest req).fanout, pr.2.isReplication = true := by
  obtain ⟨c, pl, rep⟩ := req
  constructor
  · intro h
    simp only at h
    subst h
    cases c with
    | String sc =>
      cases sc <;>
        simp [SphagnumNode.handleRequest, DataStorage.handleCommand,
          StringStore.handleCommand]
    | Generic gc =>
      cases gc <;>
        simp [SphagnumNode.handleRequest, DataStorage.handleCommand,
          StringStore.handleCommand]
  · intro pr hpr
    rcases handleRequest_fanout n ⟨c, pl, rep⟩ with h | h
    · rw [h] at hpr
      cases hpr
    · rw [h] at hpr
      exact sendToReplicas_isReplication _ _ pr hpr

/-- Witness for C2 at a concrete input: a replication `Set` request processed
by a node with a connected replica produces no fan-out. -/
theorem C2_no_amplification_w :
    (replNode.handleRequest replSetReq).fanout = [] :=
  (C2_no_amplification replNode replSetReq).1 rfl

/-- Claim C3: `Set{k,v}` returns `Str("OK")` and binds `k` to `v`, overwriting
any previous binding and leaving other keys untouched; an immediately
following `Get{k}` returns `Str(v)` and `Exists{[k]}` returns `Int(1)`. -/
theorem C3_set_semantics (st : StringStore) (k v : String) :
    st.handleCommand (.String (.Set k v)) = .ok (.String "OK", st.set k v)
    ∧ (st.set k v).data k = some v
    ∧ (∀ k2, k2 ≠ k → (st.set k v).data k2 = st.data k2)
    ∧ (st.set k v).handleCommand (.String (.Get k)) =
        .ok (.String v, st.set k v)
    ∧ (st.set k v).handleCommand (.Generic (.Exists [k])) =
        .ok (.Int 1, st.set k v) := by
  refine ⟨rfl, ?_, ?_, ?_, ?_⟩
  · simp [StringStore.set]
  · intro k2 h
    simp [StringStore.set, h]
  · simp [StringStore.handleCommand, StringStore.get, StringStore.set]
  · simp [StringStore.handleCommand, StringStore.exists, StringStore.set,
      List.countP_cons]

/-- Witness for C3 at a concrete input: setting `"a"` leaves `"b"`
untouched. -/
theorem C3_set_semantics_w :
    (StringStore.new.set "a" "x").data "b" = StringStore.new.data "b" :=
  (C3_set_semantics StringStore.new "a" "x").2.2.1 "b" (by decide)

/-- Claim C4: `Append{k,v}` binds `k` to `v` when absent, otherwise to the old
value concatenated with `v`, and returns `Int(n)` with `n` the UTF-8 byte
length of the resulting stored value — which decomposes as the old value's
byte length plus `v`'s, not merely `v`'s. -/
theorem C4_append_semantics (st : StringStore) (k v : String) :
    st.handleCommand (.String (.Append k v)) =
      .ok (.Int (((st.data k).getD "" ++ v).utf8ByteSize), (st.append k v).1)
    ∧ (st.append k v).1.data k = some ((st.data k).getD "" ++ v)
    ∧ (∀ k2, k2 ≠ k → (st.append k v).1.data k2 = st.data k2)
    ∧ (st.data k = none → (st.append k v).1.data k = some v)
    ∧ ((st.data k).getD "" ++ v).utf8ByteSize
        = ((st.data k).getD "").utf8ByteSize + v.utf8ByteSize := by
  refine ⟨rfl, ?_, ?_, ?_, stringAppend_utf8ByteSize _ _⟩
  · simp [StringStore.append]
  · intro k2 h
    simp [StringStore.append, h]
  · intro h
    simp [StringStore.append, h]

/-- Witness for C4 at a concrete input: appending to the absent key `"a"`
binds it to the argument itself. -/
theorem C4_append_semantics_w :
    (StringStore.new.append "a" "xy").1.data "a" = some "xy" :=
  (C4_append_semantics StringStore.new "a" "xy").2.2.2.1 rfl

/-- Claim C5: `Exists{ks}` leaves the keyspace unchanged and returns `Int(c)`
with `c` the sum, over the positions of `ks` (duplicates included), of the
indicator that the key at that position is present. -/
theorem C5_exists_semantics (st : StringStore) (ks : List String) :
    st.handleCommand (.Generic (.Exists ks)) =
      .ok (.Int ((ks.map fun k => if (st.data k).isSome then 1 else 0).sum),
        st) := by
  have h := countP_eq_sumIndicator (fun k => (st.data k).isSome) ks
  simp [StringStore.handleCommand, StringStore.exists, h]

/-- Claim C6: `Delete{ks}` removes every listed key and returns `Int(c)` with
`c` the number of distinct keys present just before the call that occur at
least once in `ks` (a key listed twice is counted at most once). -/
theorem C6_delete_semantics (st : StringStore) (ks : List String) :
    st.handleCommand (.Generic (.Delete ks)) =
      .ok (.Int ((ks.toFinset.filter fun k => (st.data k).isSome = true).card),
        (st.delete ks).1)
    ∧ ∀ k2, ((st.delete ks).1).data k2 = if k2 ∈ ks then none else st.data k2 := by
  refine ⟨?_, delete_data ks st⟩
  simp [StringStore.handleCommand, delete_count ks st]

/-- Claim C7: `StringStore::handle_command` succeeds on every well-formed
command — the `String` and `Generic` variants exhaust the command type, so
the "Command not supported by this engine" error arm is unreachable. -/
theorem C7_handle_command_total (st : StringStore) (c : Command) :
    ∃ r st2, st.handleCommand c = .ok (r, st2) := by
  cases c with
  | String sc => cases sc <;> exact ⟨_, _, rfl⟩
  | Generic gc => cases gc <;> exact ⟨_, _, rfl⟩

/-- Claim C8: `get_field` errors exactly when the field is empty;
`set_field s` errors exactly when `s` is empty, leaving the field unchanged,
and stores `s` otherwise; hence starting from the non-empty initial value the
field stays non-empty after every operation. -/
theorem C8_passport (p : Passport) (s : String) :
    (p.getField = .error .FieldRetrievalError ↔ p.field = "")
    ∧ (p.field ≠ "" → p.getField = .ok p.field)
    ∧ ((p.setField s).2 = .error .FieldModificationError ↔ s = "")
    ∧ (s = "" → (p.setField s).1 = p)
    ∧ (s ≠ "" → (p.setField s).1.field = s)
    ∧ (p.field ≠ "" → (p.setField s).1.field ≠ "")
    ∧ ∃ p0, Passport.new = .ok p0 ∧ p0.field ≠ "" := by
  refine ⟨?_, ?_, ?_, ?_, ?_, ?_, ⟨⟨"lawn"⟩, rfl, by decide⟩⟩ <;>
    by_cases hs : s = "" <;> by_cases hp : p.field = "" <;>
      simp [Passport.getField, Passport.setField, hs, hp]

/-- Witness for C8 at a concrete input: setting the non-empty value `"x"` on
the default passport stores it. -/
theorem C8_passport_w :
    (Passport.setField ⟨"lawn"⟩ "x").1.field = "x" :=
  (C8_passport ⟨"lawn"⟩ "x").2.2.2.2.1 (by decide)

/-- Claim C9 counterexample: at the concrete engine error `"boom"` in the
`Set` arm, the response payload is `"Error setting value: boom"`, which is
not `"Error: "` followed by the message — the claimed `"Error: "` prefix
never occurs. -/
theorem C9_error_prefix_cex :
    renderSetResult (.error "boom") = "Error setting value: boom"
    ∧ renderSetResult (.error "boom") ≠ "Error: " ++ "boom"
    ∧ List.isPrefixOf "Error: ".data (renderSetResult (.error "boom")).data
        = false := by
  decide

/-- Claim C9 (amended): whenever the engine returns an error while the node
handles an inbound request, the response payload is `"Error "` followed by an
operation-specific phrase (`setting value` / `getting value` /
`appending value` / `checking existence` / `deleting keys`), then `": "` and
the error's rendering — not the bare prefix `"Error: "`. -/
theorem C9_error_payload_amended (e : String) :
    renderSetResult (.error e) = "Error setting value: " ++ e
    ∧ renderGetResult (.error e) = "Error getting value: " ++ e
    ∧ renderAppendResult (.error e) = "Error appending value: " ++ e
    ∧ renderExistsResult (.error e) = "Error checking existence: " ++ e
    ∧ renderDeleteResult (.error e) = "Error deleting keys: " ++ e
    ∧ List.isPrefixOf "Error ".data (renderSetResult (.error e)).data = true
    ∧ List.isPrefixOf "Error ".data (renderGetResult (.error e)).data = true
    ∧ List.isPrefixOf "Error ".data (renderAppendResult (.error e)).data = true
    ∧ List.isPrefixOf "Error ".data (renderExistsResult (.error e)).data = true
    ∧ List.isPrefixOf "Error ".data (renderDeleteResult (.error e)).data = true :=
  ⟨rfl, rfl, rfl, rfl, rfl, rfl, rfl, rfl, rfl, rfl⟩

/-- Claim C10: with the key `"k"` absent the `Get{"k"}` response payload is
`"nil"`, and with `"k"` bound to the three-byte string `"nil"` the payload is
also `"nil"` — the rendering cannot distinguish the two states. -/
theorem C10_nil_ambiguity :
    (nodeAbsent.handleRequest getKReq).response.payload = "nil"
    ∧ (nodeNil.handleRequest getKReq).response.payload = "nil"
    ∧ nodeAbsent.dataStorage.data "k" = none
    ∧ nodeNil.dataStorage.data "k" = some "nil" := by
  decide
